import Mathlib

/-!
Shallow embedding of `src/app.js`: an Express application exposing CRUD
routes over users and posts, backed by a Prisma client. Request bodies,
the express-validator rules, the Prisma calls the handlers make, and the
JSON responses are modelled as pure Lean functions over an explicit
database state. Routes are state-passing functions from a database and a
request to a response paired with the new database.
-/

/-- A persisted user record (spec section 3: identifier, name, email,
role, creation timestamp). `role` is `none` when unset. Timestamps are
naturals. -/
structure User where
  id : Nat
  uuid : String
  name : String
  email : String
  role : Option String
  createdAt : Nat
deriving Repr, DecidableEq

/-- A persisted post record (spec section 3: identifier, title, body
text, creation timestamp, many-to-one relation to a user via
`userUuid`). -/
structure Post where
  id : Nat
  uuid : String
  title : String
  body : String
  createdAt : Nat
  userUuid : String
deriving Repr, DecidableEq

/-- The database state seen through the ORM client: the persisted users
and posts. -/
structure DB where
  users : List User
  posts : List Post
deriving Repr, DecidableEq

/-- The projection of a post selected by `GET /users` (app.js lines
68-73: `posts: select title, body`). -/
structure PostSummary where
  title : String
  body : String
deriving Repr, DecidableEq

/-- The projection of a user selected by `GET /users` (app.js lines
64-74: `select uuid, name, role, posts`). -/
structure UserSummary where
  uuid : String
  name : String
  role : Option String
  posts : List PostSummary
deriving Repr, DecidableEq

/-- A post together with its related user, as returned by `GET /posts`
(app.js line 174: `include: user`); the lookup is by `userUuid`. -/
structure PostWithUser where
  post : Post
  user : Option User
deriving Repr, DecidableEq

/-- The JSON body of a `POST /users` or `PUT /users/:uuid` request
(app.js line 41 and 91 destructure `name`, `email`, `role`); each field
may be absent. -/
structure UserBody where
  name : Option String
  email : Option String
  role : Option String
deriving Repr, DecidableEq

/-- The JSON body of a `POST /posts` request (app.js line 156
destructures `userUuid`, `title`, `body`). -/
structure PostBody where
  userUuid : Option String
  title : Option String
  body : Option String
deriving Repr, DecidableEq

/-- Errors raised by the ORM client and caught by the handlers. -/
inductive OrmError
  | recordNotFound
  | uniqueViolation
  | invalidRole
  | invalidQuery
deriving Repr, DecidableEq

/-- The value placed in the `error` field of a response: either a string
literal such as "Something went wrong", a one-field object thrown by a
handler (app.js lines 46, 97, 134), or a raw ORM error forwarded to the
client (app.js lines 55, 166). -/
inductive ErrVal
  | str (s : String)
  | fieldObj (field msg : String)
  | orm (e : OrmError)
deriving Repr, DecidableEq

/-- The value of the `data` field of a successful response. -/
inductive DataVal
  | user (u : User)
  | users (l : List UserSummary)
  | post (p : Post)
  | posts (l : List PostWithUser)
deriving Repr, DecidableEq

/-- The payload accompanying `success` in a response envelope: exactly
one of a `data` field, an `error` field, or a `message` field. -/
inductive Payload
  | data (d : DataVal)
  | error (e : ErrVal)
  | message (m : String)
deriving Repr, DecidableEq

/-- The JSON body of a response: either an envelope with a boolean
`success` field and one payload field (every `res.json` call in the
route handlers), or the bare field-to-message object produced by
`errors.mapped()` in `checkForErrors` (app.js line 33), which has no
`success` field. -/
inductive Body
  | envelope (success : Bool) (payload : Payload)
  | mappedErrors (errs : List (String × String))
deriving Repr, DecidableEq

/-- An HTTP response: status code (200 when `res.json` is called without
`res.status`) and JSON body. -/
structure Resp where
  status : Nat
  body : Body
deriving Repr, DecidableEq

/-- express-validator reads a body field and coerces it to a string
before running validators on it; an absent field becomes the empty
string. -/
def fieldStr : Option String → String
  | none => ""
  | some s => s

/-- Split a character list at every occurrence of `c`; the resulting
pieces do not contain `c` and there is one more piece than occurrences
of `c`. -/
def splitOnChar (c : Char) : List Char → List (List Char)
  | [] => [[]]
  | a :: rest =>
    match splitOnChar c rest with
    | [] => if a == c then [[], []] else [[a]]
    | h :: t => if a == c then [] :: h :: t else (a :: h) :: t

/-- Modelled from the spec: "email non-empty and RFC-shaped". The shape
check itself is performed by the external validator library behind
`isEmail()` (app.js line 16), which is not part of this repository; this
model accepts a string with exactly one at-sign, a nonempty local part,
and a domain of at least two nonempty dot-separated labels. -/
def emailShapedModel (s : String) : Bool :=
  match splitOnChar (Char.ofNat 64) s.toList with
  | [localPart, domain] =>
    localPart.length > 0 &&
      (splitOnChar (Char.ofNat 46) domain).length ≥ 2 &&
      (splitOnChar (Char.ofNat 46) domain).all (fun lab => lab.length > 0)
  | _ => false

/-- The `body("email")` chain (app.js lines 13-17): `isLength(min 1)`
with message "email can\x27t be empty", then `isEmail` with message
"Must be a valid email". `errors.mapped()` keeps the first error of a
field, so this returns the first failing message, or `none`. -/
def emailError (v : String) : Option String :=
  if v.length < 1 then some "email can\x27t be empty"
  else if emailShapedModel v then none
  else some "Must be a valid email"

/-- The `body("name")` rule (app.js line 18): `isLength(min 1)` with
message "name can\x27t be empty". -/
def nameError (v : String) : Option String :=
  if v.length < 1 then some "name can\x27t be empty"
  else none

/-- The `body("role")` rule (app.js lines 19-23): `isIn(["USER",
"ADMIN", "SUPERUSER", undefined])`. The validator library coerces each
member of the list to a string, turning `undefined` into the empty
string, and the absent field is likewise coerced to the empty string
before the membership test. -/
def roleError (v : String) : Option String :=
  if ["USER", "ADMIN", "SUPERUSER", ""].contains v then none
  else some "Invalid Role, must be one of [\x27USER\x27, \x27ADMIN\x27, \x27SUPERUSER\x27, undefined]"

/-- The result of `simpleValidationResults(req).mapped()` for
`userValidationRules` (app.js lines 12-28): each failing field mapped to
its first error message. -/
def userValidationErrors (b : UserBody) : List (String × String) :=
  (match emailError (fieldStr b.email) with
   | some m => [("email", m)]
   | none => []) ++
  (match nameError (fieldStr b.name) with
   | some m => [("name", m)]
   | none => []) ++
  (match roleError (fieldStr b.role) with
   | some m => [("role", m)]
   | none => [])

/-- The `body("title")` rule (app.js line 149). -/
def titleError (v : String) : Option String :=
  if v.length < 1 then some "title can\x27t be empty"
  else none

/-- The `body("body")` rule (app.js line 150). -/
def postBodyError (v : String) : Option String :=
  if v.length < 1 then some "post body can\x27t be empty"
  else none

/-- The result of `simpleValidationResults(req).mapped()` for
`postValidationRules` (app.js lines 148-151). -/
def postValidationErrors (b : PostBody) : List (String × String) :=
  (match titleError (fieldStr b.title) with
   | some m => [("title", m)]
   | none => []) ++
  (match postBodyError (fieldStr b.body) with
   | some m => [("body", m)]
   | none => [])

/-- Modelled from the spec: "role membership in the fixed enumeration"
is "enforced by the database/ORM layer" (spec section 3); the Prisma
schema is not part of this repository. A provided role outside the
enumeration is rejected by the client. -/
def roleOk : Option String → Bool
  | none => true
  | some r => ["USER", "ADMIN", "SUPERUSER"].contains r

/-- Modelled from the spec: `prisma.user.create({ data: { name, email,
role } })` appends a fresh record; "email uniqueness" and "role
membership in the fixed enumeration" are "enforced by the database/ORM
layer" (spec section 3). The database supplies the numeric id, the uuid
and the creation timestamp. -/
def userCreate (db : DB) (newId : Nat) (newUuid : String) (now : Nat)
    (name email : String) (role : Option String) :
    Except OrmError (User × DB) :=
  if roleOk role = false then Except.error OrmError.invalidRole
  else if (db.users.find? (fun u => u.email == email)).isSome then
    Except.error OrmError.uniqueViolation
  else
    let u : User := ⟨newId, newUuid, name, email, role, now⟩
    Except.ok (u, ⟨db.users ++ [u], db.posts⟩)

/-- The record that results from applying an update with data `{ name,
email, role }` to the stored record `u0`: an absent data field leaves
the stored value unchanged. -/
def updatedUser (u0 : User) (name email role : Option String) : User :=
  ⟨u0.id, u0.uuid,
    match name with
    | none => u0.name
    | some n => n,
    match email with
    | none => u0.email
    | some e => e,
    match role with
    | none => u0.role
    | some r => some r,
    u0.createdAt⟩

/-- Modelled from the spec: `prisma.user.update({ where: { uuid }, data:
{ name, email, role } })`. A missing record, a role outside the
enumeration, or an email already used by another record is an error
(spec section 3 invariants). -/
def userUpdate (db : DB) (uuid : String)
    (name email role : Option String) : Except OrmError (User × DB) :=
  match db.users.find? (fun u => u.uuid == uuid) with
  | none => Except.error OrmError.recordNotFound
  | some u0 =>
    if roleOk (updatedUser u0 name email role).role = false then
      Except.error OrmError.invalidRole
    else if (db.users.find? (fun u =>
        u.uuid != uuid && u.email == (updatedUser u0 name email role).email)).isSome then
      Except.error OrmError.uniqueViolation
    else
      Except.ok (updatedUser u0 name email role,
        ⟨db.users.map (fun u =>
          if u.uuid == uuid then updatedUser u0 name email role else u),
         db.posts⟩)

/-- Modelled from the spec: `prisma.user.delete({ where: { uuid } })`
removes the record, or raises a record-not-found error when no record
has that uuid. -/
def userDelete (db : DB) (uuid : String) : Except OrmError DB :=
  if (db.users.find? (fun u => u.uuid == uuid)).isSome then
    Except.ok ⟨db.users.filter (fun u => u.uuid != uuid), db.posts⟩
  else Except.error OrmError.recordNotFound

/-- Modelled from the spec: `prisma.post.create({ data: { title, body,
user: { connect: { uuid: userUuid } } } })` appends a fresh post
connected to the user with that uuid; "post-to-user referential
integrity" is "enforced by the database/ORM layer" (spec section 3), so
a missing connect target is an error, as is an absent `userUuid`. -/
def postCreate (db : DB) (newId : Nat) (newUuid : String) (now : Nat)
    (title bodyText : String) (userUuid : Option String) :
    Except OrmError (Post × DB) :=
  match userUuid with
  | none => Except.error OrmError.invalidQuery
  | some uu =>
    if (db.users.find? (fun u => u.uuid == uu)).isSome then
      let p : Post := ⟨newId, newUuid, title, bodyText, now, uu⟩
      Except.ok (p, ⟨db.users, db.posts ++ [p]⟩)
    else Except.error OrmError.recordNotFound

/-- The descending creation-time order requested by `orderBy: {
createdAt: "desc" }` on users (app.js line 63). -/
def userDesc : User → User → Prop := fun a b => b.createdAt ≤ a.createdAt

/-- The descending creation-time order requested by `orderBy: {
createdAt: "desc" }` on posts (app.js line 173). -/
def postDesc : Post → Post → Prop := fun a b => b.createdAt ≤ a.createdAt

instance : DecidableRel userDesc :=
  fun a b => inferInstanceAs (Decidable (b.createdAt ≤ a.createdAt))

instance : DecidableRel postDesc :=
  fun a b => inferInstanceAs (Decidable (b.createdAt ≤ a.createdAt))

instance : IsTotal User userDesc :=
  ⟨fun a b => le_total b.createdAt a.createdAt⟩

instance : IsTrans User userDesc :=
  ⟨fun _ _ _ h1 h2 => le_trans h2 h1⟩

instance : IsTotal Post postDesc :=
  ⟨fun a b => le_total b.createdAt a.createdAt⟩

instance : IsTrans Post postDesc :=
  ⟨fun _ _ _ h1 h2 => le_trans h2 h1⟩

/-- The view of a user returned by `GET /users` (app.js lines 64-74):
uuid, name, role, and the titles and bodies of the related posts. -/
def summarize (db : DB) (u : User) : UserSummary :=
  ⟨u.uuid, u.name, u.role,
    (db.posts.filter (fun p => p.userUuid == u.uuid)).map
      (fun p => ⟨p.title, p.body⟩)⟩

/-- The view of a post returned by `GET /posts` (app.js line 174): the
post together with its related user. -/
def withUser (db : DB) (p : Post) : PostWithUser :=
  ⟨p, db.users.find? (fun u => u.uuid == p.userUuid)⟩

/-- The `POST /users` route handler proper (app.js lines 40-57, after
the validation middleware): reject when `findFirst` by email hits, else
create and return the record. The catch block answers 400 with the raw
error. -/
def postUsersHandler (db : DB) (b : UserBody) (newId : Nat)
    (newUuid : String) (now : Nat) : Resp × DB :=
  if (db.users.find? (fun u => u.email == fieldStr b.email)).isSome then
    (⟨400, Body.envelope false
      (Payload.error (ErrVal.fieldObj "email" "email already exists"))⟩, db)
  else
    match userCreate db newId newUuid now (fieldStr b.name)
        (fieldStr b.email) b.role with
    | Except.ok (u, db2) =>
      (⟨200, Body.envelope true (Payload.data (DataVal.user u))⟩, db2)
    | Except.error e =>
      (⟨400, Body.envelope false (Payload.error (ErrVal.orm e))⟩, db)

/-- The full `POST /users` route: `userValidationRules` and
`checkForErrors` (app.js lines 30-37) run before the handler; on any
validation error the middleware answers 400 with the mapped errors. -/
def postUsers (db : DB) (b : UserBody) (newId : Nat) (newUuid : String)
    (now : Nat) : Resp × DB :=
  let errs := userValidationErrors b
  if errs.isEmpty then postUsersHandler db b newId newUuid now
  else (⟨400, Body.mappedErrors errs⟩, db)

/-- The `GET /users` route (app.js lines 60-83): `findMany` ordered by
`createdAt` descending with the uuid/name/role/posts projection. -/
def getUsers (db : DB) : Resp :=
  ⟨200, Body.envelope true (Payload.data (DataVal.users
    ((List.insertionSort userDesc db.users).map (summarize db))))⟩

/-- The `PUT /users/:uuid` route handler proper (app.js lines 90-110,
after the validation middleware): 404 with the thrown object when
`findFirst` by uuid misses, else update and return the record; any
caught error is answered 404 with the raw error. -/
def putUsersHandler (db : DB) (uuid : String) (b : UserBody) :
    Resp × DB :=
  match db.users.find? (fun u => u.uuid == uuid) with
  | none =>
    (⟨404, Body.envelope false
      (Payload.error (ErrVal.fieldObj "user" "user doesn\x27t exists"))⟩, db)
  | some _ =>
    match userUpdate db uuid b.name b.email b.role with
    | Except.ok (u, db2) =>
      (⟨200, Body.envelope true (Payload.data (DataVal.user u))⟩, db2)
    | Except.error e =>
      (⟨404, Body.envelope false (Payload.error (ErrVal.orm e))⟩, db)

/-- The full `PUT /users/:uuid` route (app.js lines 86-111), validation
middleware included. -/
def putUsers (db : DB) (uuid : String) (b : UserBody) : Resp × DB :=
  let errs := userValidationErrors b
  if errs.isEmpty then putUsersHandler db uuid b
  else (⟨400, Body.mappedErrors errs⟩, db)

/-- The `DELETE /users/:uuid` route (app.js lines 114-125): delete and
answer the message "User deleted"; any caught error is answered 500 with
the literal "Something went wrong". -/
def deleteUsers (db : DB) (uuid : String) : Resp × DB :=
  match userDelete db uuid with
  | Except.ok db2 =>
    (⟨200, Body.envelope true (Payload.message "User deleted")⟩, db2)
  | Except.error _ =>
    (⟨500, Body.envelope false
      (Payload.error (ErrVal.str "Something went wrong"))⟩, db)

/-- The `GET /users/:uuid` route (app.js lines 128-144): return the
record found by uuid, or 404 with the literal "Something went wrong". -/
def getUser (db : DB) (uuid : String) : Resp :=
  match db.users.find? (fun u => u.uuid == uuid) with
  | some u =>
    ⟨200, Body.envelope true (Payload.data (DataVal.user u))⟩
  | none =>
    ⟨404, Body.envelope false
      (Payload.error (ErrVal.str "Something went wrong"))⟩

/-- The `POST /posts` route handler proper (app.js lines 155-168, after
the validation middleware): create the post connected to `userUuid`; any
caught error is answered 500 with the raw error. -/
def postPostsHandler (db : DB) (b : PostBody) (newId : Nat)
    (newUuid : String) (now : Nat) : Resp × DB :=
  match postCreate db newId newUuid now (fieldStr b.title)
      (fieldStr b.body) b.userUuid with
  | Except.ok (p, db2) =>
    (⟨200, Body.envelope true (Payload.data (DataVal.post p))⟩, db2)
  | Except.error e =>
    (⟨500, Body.envelope false (Payload.error (ErrVal.orm e))⟩, db)

/-- The full `POST /posts` route (app.js line 155), validation
middleware included. -/
def postPosts (db : DB) (b : PostBody) (newId : Nat) (newUuid : String)
    (now : Nat) : Resp × DB :=
  let errs := postValidationErrors b
  if errs.isEmpty then postPostsHandler db b newId newUuid now
  else (⟨400, Body.mappedErrors errs⟩, db)

/-- The `GET /posts` route (app.js lines 170-183): `findMany` ordered by
`createdAt` descending, each post including its user. -/
def getPosts (db : DB) : Resp :=
  ⟨200, Body.envelope true (Payload.data (DataVal.posts
    ((List.insertionSort postDesc db.posts).map (withUser db))))⟩

/-- One request to any of the seven routes of the application, with the
database-supplied id, uuid and timestamp for the creating routes. -/
inductive Request
  | postUsers (b : UserBody) (newId : Nat) (newUuid : String) (now : Nat)
  | getUsers
  | getUser (uuid : String)
  | putUsers (uuid : String) (b : UserBody)
  | deleteUsers (uuid : String)
  | postPosts (b : PostBody) (newId : Nat) (newUuid : String) (now : Nat)
  | getPosts
deriving Repr, DecidableEq

/-- Dispatch a request to its route, returning the response and the new
database state (unchanged for the read-only routes). -/
def handle (db : DB) : Request → Resp × DB
  | Request.postUsers b i uu t => postUsers db b i uu t
  | Request.getUsers => (getUsers db, db)
  | Request.getUser uuid => (getUser db uuid, db)
  | Request.putUsers uuid b => putUsers db uuid b
  | Request.deleteUsers uuid => deleteUsers db uuid
  | Request.postPosts b i uu t => postPosts db b i uu t
  | Request.getPosts => (getPosts db, db)

/-- Whether a response body is an envelope, i.e. carries a boolean
`success` field together with a `data`, `error` or `message` field. -/
def isEnvelopeBody : Body → Bool
  | Body.envelope _ _ => true
  | Body.mappedErrors _ => false

/-- Whether a response body forwards a raw ORM error object to the
client in its `error` field. -/
def exposesOrmError : Body → Bool
  | Body.envelope _ (Payload.error (ErrVal.orm _)) => true
  | _ => false

/-- C1: a `GET /users/:uuid` or `PUT /users/:uuid` request whose uuid
matches no persisted user is answered with HTTP status 404 by the route
handler. (A `PUT` body that fails validation is answered 400 by the
`checkForErrors` middleware before the handler runs; the handler itself
always answers 404 on an unknown uuid.) -/
theorem c1_unknown_uuid_404 (db : DB) (uuid : String) (b : UserBody)
    (h : db.users.find? (fun u => u.uuid == uuid) = none) :
    (getUser db uuid).status = 404 ∧
      (putUsersHandler db uuid b).1.status = 404 := by
  refine ⟨?_, ?_⟩ <;> simp [getUser, putUsersHandler, h]

/-- Witness for C1 at a concrete input: the empty database has no user
with uuid "missing". -/
theorem c1_unknown_uuid_404_witness :
    (⟨[], []⟩ : DB).users.find? (fun u => u.uuid == "missing") = none ∧
      ((getUser ⟨[], []⟩ "missing").status = 404 ∧
        (putUsersHandler ⟨[], []⟩ "missing" ⟨none, none, none⟩).1.status = 404) :=
  ⟨by decide,
    c1_unknown_uuid_404 ⟨[], []⟩ "missing" ⟨none, none, none⟩ (by decide)⟩

/-- C2: a `POST /users` request whose email equals the email of an
already persisted user is answered with HTTP status 400: by the
handler's duplicate check when the body passes validation, and by the
validation middleware otherwise. -/
theorem c2_duplicate_email_400 (db : DB) (b : UserBody) (newId : Nat)
    (newUuid : String) (now : Nat)
    (h : ∃ u ∈ db.users, u.email = fieldStr b.email) :
    (postUsers db b newId newUuid now).1.status = 400 := by
  have hfind : (db.users.find? (fun u => u.email == fieldStr b.email)).isSome := by
    rw [List.find?_isSome]
    obtain ⟨u, hu, he⟩ := h
    exact ⟨u, hu, by simp [he]⟩
  unfold postUsers postUsersHandler
  by_cases hv : (userValidationErrors b).isEmpty <;> simp [hv, hfind]

/-- Witness for C2 at a concrete input: a database holding a user with
email "alice@example.com" and a request with the same email. -/
theorem c2_duplicate_email_400_witness :
    (∃ u ∈ (⟨[⟨1, "u1", "Alice", "alice@example.com", none, 0⟩], []⟩ : DB).users,
        u.email = fieldStr (some "alice@example.com")) ∧
      (postUsers ⟨[⟨1, "u1", "Alice", "alice@example.com", none, 0⟩], []⟩
        ⟨some "Bob", some "alice@example.com", none⟩ 2 "u2" 1).1.status = 400 :=
  ⟨⟨⟨1, "u1", "Alice", "alice@example.com", none, 0⟩, by decide, by decide⟩,
    c2_duplicate_email_400 ⟨[⟨1, "u1", "Alice", "alice@example.com", none, 0⟩], []⟩
      ⟨some "Bob", some "alice@example.com", none⟩ 2 "u2" 1
      ⟨⟨1, "u1", "Alice", "alice@example.com", none, 0⟩, by decide, by decide⟩⟩

/-- C8: a `DELETE /users/:uuid` request whose uuid matches no persisted
user is answered with HTTP status 500 and body success false, error
"Something went wrong" (not 404): `prisma.user.delete` raises, and the
catch block of the delete route treats every error the same way. -/
theorem c8_delete_unknown_500 (db : DB) (uuid : String)
    (h : db.users.find? (fun u => u.uuid == uuid) = none) :
    deleteUsers db uuid =
      (⟨500, Body.envelope false
        (Payload.error (ErrVal.str "Something went wrong"))⟩, db) := by
  unfold deleteUsers userDelete
  simp [h]

/-- Witness for C8 at a concrete input. -/
theorem c8_delete_unknown_500_witness :
    (⟨[⟨1, "u1", "Alice", "alice@example.com", none, 0⟩], []⟩ : DB).users.find?
        (fun u => u.uuid == "ghost") = none ∧
      deleteUsers ⟨[⟨1, "u1", "Alice", "alice@example.com", none, 0⟩], []⟩ "ghost" =
        (⟨500, Body.envelope false
          (Payload.error (ErrVal.str "Something went wrong"))⟩,
         ⟨[⟨1, "u1", "Alice", "alice@example.com", none, 0⟩], []⟩) :=
  ⟨by decide,
    c8_delete_unknown_500 ⟨[⟨1, "u1", "Alice", "alice@example.com", none, 0⟩], []⟩
      "ghost" (by decide)⟩

/-- C10: a `POST /users` request whose email equals the email of an
already persisted user leaves the database unchanged: the handler throws
before `prisma.user.create` is reached (and a body failing validation
never reaches the handler at all). -/
theorem c10_no_create_on_duplicate (db : DB) (b : UserBody) (newId : Nat)
    (newUuid : String) (now : Nat)
    (h : ∃ u ∈ db.users, u.email = fieldStr b.email) :
    (postUsers db b newId newUuid now).2 = db := by
  have hfind : (db.users.find? (fun u => u.email == fieldStr b.email)).isSome := by
    rw [List.find?_isSome]
    obtain ⟨u, hu, he⟩ := h
    exact ⟨u, hu, by simp [he]⟩
  unfold postUsers postUsersHandler
  by_cases hv : (userValidationErrors b).isEmpty <;> simp [hv, hfind]

/-- Witness for C10 at a concrete input. -/
theorem c10_no_create_on_duplicate_witness :
    (∃ u ∈ (⟨[⟨1, "u1", "Alice", "alice@example.com", none, 0⟩], []⟩ : DB).users,
        u.email = fieldStr (some "alice@example.com")) ∧
      (postUsers ⟨[⟨1, "u1", "Alice", "alice@example.com", none, 0⟩], []⟩
          ⟨some "Bob", some "alice@example.com", none⟩ 2 "u2" 1).2 =
        ⟨[⟨1, "u1", "Alice", "alice@example.com", none, 0⟩], []⟩ :=
  ⟨⟨⟨1, "u1", "Alice", "alice@example.com", none, 0⟩, by decide, by decide⟩,
    c10_no_create_on_duplicate ⟨[⟨1, "u1", "Alice", "alice@example.com", none, 0⟩], []⟩
      ⟨some "Bob", some "alice@example.com", none⟩ 2 "u2" 1
      ⟨⟨1, "u1", "Alice", "alice@example.com", none, 0⟩, by decide, by decide⟩⟩

/-- Every body produced by the `POST /users` handler proper is an
envelope. -/
theorem postUsersHandler_isEnvelope (db : DB) (b : UserBody) (newId : Nat)
    (newUuid : String) (now : Nat) :
    isEnvelopeBody (postUsersHandler db b newId newUuid now).1.body = true := by
  unfold postUsersHandler
  split
  · rfl
  · split <;> rfl

/-- Every body produced by the `PUT /users/:uuid` handler proper is an
envelope. -/
theorem putUsersHandler_isEnvelope (db : DB) (uuid : String) (b : UserBody) :
    isEnvelopeBody (putUsersHandler db uuid b).1.body = true := by
  unfold putUsersHandler
  split
  · rfl
  · split <;> rfl

/-- Every body produced by the `POST /posts` handler proper is an
envelope. -/
theorem postPostsHandler_isEnvelope (db : DB) (b : PostBody) (newId : Nat)
    (newUuid : String) (now : Nat) :
    isEnvelopeBody (postPostsHandler db b newId newUuid now).1.body = true := by
  unfold postPostsHandler
  split <;> rfl

/-- Every body produced by the `DELETE /users/:uuid` route is an
envelope. -/
theorem deleteUsers_isEnvelope (db : DB) (uuid : String) :
    isEnvelopeBody (deleteUsers db uuid).1.body = true := by
  unfold deleteUsers
  split <;> rfl

/-- Every body produced by the `GET /users/:uuid` route is an envelope. -/
theorem getUser_isEnvelope (db : DB) (uuid : String) :
    isEnvelopeBody (getUser db uuid).body = true := by
  unfold getUser
  split <;> rfl

/-- C4 counterexample: a `POST /users` request with an empty body fails
validation, and `checkForErrors` answers it with the bare
`errors.mapped()` object, which has no `success` field; the claim that
every response body carries a boolean `success` field is therefore
false. -/
theorem c4_counterexample :
    isEnvelopeBody
      (handle ⟨[], []⟩ (Request.postUsers ⟨none, none, none⟩ 1 "u1" 0)).1.body
      = false := by decide

/-- C4 as amended: every response of every route either is an envelope
with a boolean `success` field and a `data`, `error` or `message` field,
or is a 400 validation failure whose body is the bare field-to-message
object produced by `errors.mapped()`. -/
theorem c4_envelope_amended (db : DB) (r : Request) :
    isEnvelopeBody (handle db r).1.body = true ∨
      ((handle db r).1.status = 400 ∧
        ∃ errs, (handle db r).1.body = Body.mappedErrors errs) := by
  cases r with
  | postUsers b newId newUuid now =>
    by_cases hv : (userValidationErrors b).isEmpty
    · exact Or.inl (by simpa [handle, postUsers, hv] using
        postUsersHandler_isEnvelope db b newId newUuid now)
    · exact Or.inr (by simp [handle, postUsers, hv])
  | getUsers => exact Or.inl rfl
  | getUser uuid => exact Or.inl (getUser_isEnvelope db uuid)
  | putUsers uuid b =>
    by_cases hv : (userValidationErrors b).isEmpty
    · exact Or.inl (by simpa [handle, putUsers, hv] using
        putUsersHandler_isEnvelope db uuid b)
    · exact Or.inr (by simp [handle, putUsers, hv])
  | deleteUsers uuid => exact Or.inl (deleteUsers_isEnvelope db uuid)
  | postPosts b newId newUuid now =>
    by_cases hv : (postValidationErrors b).isEmpty
    · exact Or.inl (by simpa [handle, postPosts, hv] using
        postPostsHandler_isEnvelope db b newId newUuid now)
    · exact Or.inr (by simp [handle, postPosts, hv])
  | getPosts => exact Or.inl rfl

/-- C6 counterexample: a request carrying `role` as the empty string
passes the role rule, because `isIn(["USER", "ADMIN", "SUPERUSER",
undefined])` coerces `undefined` to the empty string; yet the empty
string is neither absent nor one of USER, ADMIN, SUPERUSER. -/
theorem c6_counterexample :
    roleError (fieldStr (some "")) = none ∧
      (some "" : Option String) ≠ none ∧
      ¬((some "" : Option String) = some "USER" ∨
        (some "" : Option String) = some "ADMIN" ∨
        (some "" : Option String) = some "SUPERUSER") :=
  ⟨by decide, by decide, by decide⟩

/-- C6 as amended: role validation succeeds exactly when the role is
absent or one of USER, ADMIN, SUPERUSER, or the empty string (the image
of `undefined` under the validator library's string coercion). -/
theorem c6_role_rule_amended (r : Option String) :
    roleError (fieldStr r) = none ↔
      (r = none ∨ r = some "USER" ∨ r = some "ADMIN" ∨
        r = some "SUPERUSER" ∨ r = some "") := by
  have key : ∀ v : String, roleError v = none ↔
      (["USER", "ADMIN", "SUPERUSER", ""].contains v) = true := by
    intro v
    unfold roleError
    split <;> simp_all
  cases r with
  | none => decide
  | some s =>
    rw [fieldStr, key]
    simp

/-- C3 counterexample: a request whose only offending field is a role
equal to the empty string passes validation (the `isIn` list coerces
`undefined` to the empty string), so `checkForErrors` produces no
field-to-message map; the request reaches the handler, the ORM layer
rejects the role, and the catch block answers with a raw-error envelope
instead of a field-keyed body. -/
theorem c3_counterexample :
    userValidationErrors ⟨some "Alice", some "alice@example.com", some ""⟩ = [] ∧
      (postUsers ⟨[], []⟩ ⟨some "Alice", some "alice@example.com", some ""⟩ 1 "u1" 0).1 =
        ⟨400, Body.envelope false (Payload.error (ErrVal.orm OrmError.invalidRole))⟩ :=
  ⟨by decide, by decide⟩

/-- C3 as amended: a `POST /users` or `PUT /users/:uuid` request with an
empty or non-RFC-shaped email, an empty name, or a role that is present
and not one of USER, ADMIN, SUPERUSER, or the empty string, is answered
with HTTP status 400 and the `errors.mapped()` body, which maps each
failing field name to its first message. -/
theorem c3_validation_400_amended (db db2 : DB) (uuid : String)
    (b : UserBody) (newId : Nat) (newUuid : String) (now : Nat)
    (h : emailError (fieldStr b.email) ≠ none ∨
      nameError (fieldStr b.name) ≠ none ∨
      roleError (fieldStr b.role) ≠ none) :
    (postUsers db b newId newUuid now).1 =
        ⟨400, Body.mappedErrors (userValidationErrors b)⟩ ∧
      (putUsers db2 uuid b).1 =
        ⟨400, Body.mappedErrors (userValidationErrors b)⟩ ∧
      (∀ m, emailError (fieldStr b.email) = some m →
        ("email", m) ∈ userValidationErrors b) ∧
      (∀ m, nameError (fieldStr b.name) = some m →
        ("name", m) ∈ userValidationErrors b) ∧
      (∀ m, roleError (fieldStr b.role) = some m →
        ("role", m) ∈ userValidationErrors b) := by
  have hne : (userValidationErrors b).isEmpty = false := by
    rcases h with h | h | h
    · cases he : emailError (fieldStr b.email) with
      | none => exact absurd he h
      | some m => simp [userValidationErrors, he]
    · cases he : nameError (fieldStr b.name) with
      | none => exact absurd he h
      | some m => simp [userValidationErrors, he]
    · cases he : roleError (fieldStr b.role) with
      | none => exact absurd he h
      | some m => simp [userValidationErrors, he]
  refine ⟨?_, ?_, ?_, ?_, ?_⟩
  · simp [postUsers, hne]
  · simp [putUsers, hne]
  · intro m hm; simp [userValidationErrors, hm]
  · intro m hm; simp [userValidationErrors, hm]
  · intro m hm; simp [userValidationErrors, hm]

/-- Witness for C3 as amended, at a request with an empty name, a
non-shaped email and an out-of-enumeration role. -/
theorem c3_validation_400_amended_witness :
    (emailError (fieldStr ((⟨some "", some "bad-email", some "WIZARD"⟩ : UserBody)).email) ≠ none ∨
      nameError (fieldStr ((⟨some "", some "bad-email", some "WIZARD"⟩ : UserBody)).name) ≠ none ∨
      roleError (fieldStr ((⟨some "", some "bad-email", some "WIZARD"⟩ : UserBody)).role) ≠ none) ∧
      (postUsers ⟨[], []⟩ ⟨some "", some "bad-email", some "WIZARD"⟩ 1 "u1" 0).1 =
        ⟨400, Body.mappedErrors (userValidationErrors ⟨some "", some "bad-email", some "WIZARD"⟩)⟩ ∧
      (putUsers ⟨[], []⟩ "u1" ⟨some "", some "bad-email", some "WIZARD"⟩).1 =
        ⟨400, Body.mappedErrors (userValidationErrors ⟨some "", some "bad-email", some "WIZARD"⟩)⟩ :=
  ⟨Or.inl (by decide),
    (c3_validation_400_amended ⟨[], []⟩ ⟨[], []⟩ "u1"
      ⟨some "", some "bad-email", some "WIZARD"⟩ 1 "u1" 0 (Or.inl (by decide))).1,
    (c3_validation_400_amended ⟨[], []⟩ ⟨[], []⟩ "u1"
      ⟨some "", some "bad-email", some "WIZARD"⟩ 1 "u1" 0 (Or.inl (by decide))).2.1⟩

/-- C7 counterexample: a `POST /posts` whose `userUuid` matches no user
fails with HTTP status 500, but the catch block sends the caught error
object itself in the `error` field (app.js line 166) rather than an
opaque message. -/
theorem c7_counterexample :
    (postPosts ⟨[], []⟩ ⟨some "nouser", some "T", some "B"⟩ 1 "p1" 0).1 =
        ⟨500, Body.envelope false
          (Payload.error (ErrVal.orm OrmError.recordNotFound))⟩ ∧
      exposesOrmError
        (postPosts ⟨[], []⟩ ⟨some "nouser", some "T", some "B"⟩ 1 "p1" 0).1.body
        = true :=
  ⟨by decide, by decide⟩

/-- C7 as amended: generic failures are answered with HTTP status 500;
a failing `DELETE /users/:uuid` carries the fixed opaque message
"Something went wrong", but a failing `POST /posts` creation forwards
the raw error object in the `error` field instead of an opaque message.
-/
theorem c7_generic_failure_amended (db dbd : DB) (uuid : String)
    (b : PostBody) (newId : Nat) (newUuid : String) (now : Nat)
    (e : OrmError)
    (hdel : dbd.users.find? (fun u => u.uuid == uuid) = none)
    (hpe : (postValidationErrors b).isEmpty = true)
    (hfail : postCreate db newId newUuid now (fieldStr b.title)
      (fieldStr b.body) b.userUuid = Except.error e) :
    deleteUsers dbd uuid =
        (⟨500, Body.envelope false
          (Payload.error (ErrVal.str "Something went wrong"))⟩, dbd) ∧
      (postPosts db b newId newUuid now).1 =
        ⟨500, Body.envelope false (Payload.error (ErrVal.orm e))⟩ := by
  constructor
  · unfold deleteUsers userDelete
    simp [hdel]
  · simp [postPosts, hpe, postPostsHandler, hfail]

/-- Witness for C7 as amended: deleting an unknown uuid from a one-user
database, and creating a post connected to a nonexistent user. -/
theorem c7_generic_failure_amended_witness :
    (⟨[⟨1, "u1", "Alice", "alice@example.com", none, 0⟩], []⟩ : DB).users.find?
        (fun u => u.uuid == "ghost") = none ∧
      (postValidationErrors ⟨some "nouser", some "T", some "B"⟩).isEmpty = true ∧
      postCreate ⟨[], []⟩ 1 "p1" 0
          (fieldStr ((⟨some "nouser", some "T", some "B"⟩ : PostBody)).title)
          (fieldStr ((⟨some "nouser", some "T", some "B"⟩ : PostBody)).body)
          ((⟨some "nouser", some "T", some "B"⟩ : PostBody)).userUuid =
        Except.error OrmError.recordNotFound ∧
      deleteUsers ⟨[⟨1, "u1", "Alice", "alice@example.com", none, 0⟩], []⟩ "ghost" =
        (⟨500, Body.envelope false
          (Payload.error (ErrVal.str "Something went wrong"))⟩,
         ⟨[⟨1, "u1", "Alice", "alice@example.com", none, 0⟩], []⟩) ∧
      (postPosts ⟨[], []⟩ ⟨some "nouser", some "T", some "B"⟩ 1 "p1" 0).1 =
        ⟨500, Body.envelope false
          (Payload.error (ErrVal.orm OrmError.recordNotFound))⟩ :=
  ⟨by decide, by decide, rfl,
    (c7_generic_failure_amended ⟨[], []⟩
      ⟨[⟨1, "u1", "Alice", "alice@example.com", none, 0⟩], []⟩ "ghost"
      ⟨some "nouser", some "T", some "B"⟩ 1 "p1" 0 OrmError.recordNotFound
      (by decide) (by decide) rfl).1,
    (c7_generic_failure_amended ⟨[], []⟩
      ⟨[⟨1, "u1", "Alice", "alice@example.com", none, 0⟩], []⟩ "ghost"
      ⟨some "nouser", some "T", some "B"⟩ 1 "p1" 0 OrmError.recordNotFound
      (by decide) (by decide) rfl).2⟩

/-- C9: both list reads issue `findMany` with `orderBy: { createdAt:
"desc" }`: the returned `GET /users` data is the projection of an
arrangement of the persisted users that descends in creation time, and
the returned `GET /posts` data is the user-joined view of such an
arrangement of the persisted posts. -/
theorem c9_sorted_desc (db : DB) :
    (∃ l : List User, List.Perm l db.users ∧ List.Pairwise userDesc l ∧
      getUsers db = ⟨200, Body.envelope true (Payload.data (DataVal.users
        (l.map (summarize db))))⟩) ∧
    (∃ ps : List Post, List.Perm ps db.posts ∧ List.Pairwise postDesc ps ∧
      getPosts db = ⟨200, Body.envelope true (Payload.data (DataVal.posts
        (ps.map (withUser db))))⟩) :=
  ⟨⟨List.insertionSort userDesc db.users, List.perm_insertionSort _ _,
      List.sorted_insertionSort _ _, rfl⟩,
    ⟨List.insertionSort postDesc db.posts, List.perm_insertionSort _ _,
      List.sorted_insertionSort _ _, rfl⟩⟩

/-- C5 counterexample: the `GET /users` projection drops the email, the
creation timestamp and the numeric id, so two databases whose single
persisted records differ in email produce identical `GET /users`
responses; the returned data therefore does not equal the persisted
record with all of its fields. -/
theorem c5_counterexample :
    getUsers ⟨[⟨1, "a", "N", "e1@x.co", none, 5⟩], []⟩ =
        getUsers ⟨[⟨1, "a", "N", "e2@x.co", none, 5⟩], []⟩ ∧
      (⟨[⟨1, "a", "N", "e1@x.co", none, 5⟩], []⟩ : DB) ≠
        ⟨[⟨1, "a", "N", "e2@x.co", none, 5⟩], []⟩ :=
  ⟨by decide, by decide⟩

/-- C5 as amended: a successful `POST /users` answers with the full
created record exactly as appended to the database; a successful
`GET /users/:uuid` answers with the full persisted record found; a
successful `PUT /users/:uuid` answers with the full updated record as
persisted; `GET /users`, however, returns only the uuid, name, role and
post titles/bodies of each persisted user, omitting email, creation
timestamp and numeric id. -/
theorem c5_roundtrip_amended
    (db : DB) (b : UserBody) (newId : Nat) (newUuid : String) (now : Nat)
    (dbg : DB) (uuidg : String) (ug : User)
    (dbp : DB) (uuidp : String) (bp : UserBody) (u1 : User) (dbp2 : DB)
    (dbl : DB)
    (hv : (userValidationErrors b).isEmpty = true)
    (hdup : db.users.find? (fun u => u.email == fieldStr b.email) = none)
    (hrole : roleOk b.role = true)
    (hg : dbg.users.find? (fun u => u.uuid == uuidg) = some ug)
    (hpv : (userValidationErrors bp).isEmpty = true)
    (hupd : userUpdate dbp uuidp bp.name bp.email bp.role =
      Except.ok (u1, dbp2)) :
    postUsers db b newId newUuid now =
        (⟨200, Body.envelope true (Payload.data (DataVal.user
          ⟨newId, newUuid, fieldStr b.name, fieldStr b.email, b.role, now⟩))⟩,
         ⟨db.users ++
            [⟨newId, newUuid, fieldStr b.name, fieldStr b.email, b.role, now⟩],
          db.posts⟩) ∧
      getUser dbg uuidg =
        ⟨200, Body.envelope true (Payload.data (DataVal.user ug))⟩ ∧
      ug ∈ dbg.users ∧
      putUsers dbp uuidp bp =
        (⟨200, Body.envelope true (Payload.data (DataVal.user u1))⟩, dbp2) ∧
      u1 ∈ dbp2.users ∧
      (∃ l : List User, List.Perm l dbl.users ∧
        getUsers dbl = ⟨200, Body.envelope true (Payload.data (DataVal.users
          (l.map (summarize dbl))))⟩) := by
  obtain ⟨u0, hf⟩ : ∃ u0, dbp.users.find? (fun u => u.uuid == uuidp) = some u0 := by
    cases hf : dbp.users.find? (fun u => u.uuid == uuidp) with
    | none =>
      unfold userUpdate at hupd
      rw [hf] at hupd
      cases hupd
    | some u0 => exact ⟨u0, rfl⟩
  have hmem0 : u0 ∈ dbp.users := List.mem_of_find?_eq_some hf
  have hbeq := List.find?_some hf
  have hupd2 := hupd
  unfold userUpdate at hupd2
  simp only [hf] at hupd2
  refine ⟨?_, ?_, ?_, ?_, ?_, ?_⟩
  · simp [postUsers, postUsersHandler, userCreate, hv, hdup, hrole]
  · simp [getUser, hg]
  · exact List.mem_of_find?_eq_some hg
  · simp [putUsers, putUsersHandler, hpv, hf, hupd]
  · split at hupd2
    · cases hupd2
    · split at hupd2
      · cases hupd2
      · have hpair := Except.ok.inj hupd2
        have hu1 : u1 = updatedUser u0 bp.name bp.email bp.role :=
          (congrArg Prod.fst hpair).symm
        have hdb2 : dbp2 =
            ⟨dbp.users.map (fun u =>
              if u.uuid == uuidp then updatedUser u0 bp.name bp.email bp.role
              else u), dbp.posts⟩ :=
          (congrArg Prod.snd hpair).symm
        rw [hdb2]
        exact List.mem_map.mpr ⟨u0, hmem0, by simp [hbeq, hu1]⟩
  · exact ⟨List.insertionSort userDesc dbl.users,
      List.perm_insertionSort _ _, rfl⟩

/-- Witness for C5 as amended: creating a user in an empty database,
reading and updating a persisted user, and listing a one-user database.
-/
theorem c5_roundtrip_amended_witness :
    ((userValidationErrors ⟨some "Alice", some "alice@example.com", some "USER"⟩).isEmpty = true ∧
      (⟨[], []⟩ : DB).users.find?
        (fun u => u.email == fieldStr (some "alice@example.com")) = none ∧
      roleOk (some "USER") = true ∧
      (⟨[⟨1, "u1", "Alice", "alice@example.com", none, 3⟩], []⟩ : DB).users.find?
        (fun u => u.uuid == "u1") = some ⟨1, "u1", "Alice", "alice@example.com", none, 3⟩ ∧
      (userValidationErrors ⟨some "Al", some "al@x.co", none⟩).isEmpty = true ∧
      userUpdate ⟨[⟨1, "u1", "Alice", "alice@example.com", none, 3⟩], []⟩ "u1"
          (some "Al") (some "al@x.co") none =
        Except.ok (⟨1, "u1", "Al", "al@x.co", none, 3⟩,
          ⟨[⟨1, "u1", "Al", "al@x.co", none, 3⟩], []⟩)) ∧
      (postUsers ⟨[], []⟩ ⟨some "Alice", some "alice@example.com", some "USER"⟩ 1 "u1" 0 =
        (⟨200, Body.envelope true (Payload.data (DataVal.user
          ⟨1, "u1", fieldStr (some "Alice"), fieldStr (some "alice@example.com"),
            some "USER", 0⟩))⟩,
         ⟨[⟨1, "u1", fieldStr (some "Alice"), fieldStr (some "alice@example.com"),
            some "USER", 0⟩], []⟩)) :=
  ⟨⟨by decide, by decide, by decide, by decide, by decide, rfl⟩,
    (c5_roundtrip_amended (⟨[], []⟩ : DB)
      ⟨some "Alice", some "alice@example.com", some "USER"⟩ 1 "u1" 0
      ⟨[⟨1, "u1", "Alice", "alice@example.com", none, 3⟩], []⟩ "u1"
      ⟨1, "u1", "Alice", "alice@example.com", none, 3⟩
      ⟨[⟨1, "u1", "Alice", "alice@example.com", none, 3⟩], []⟩ "u1"
      ⟨some "Al", some "al@x.co", none⟩
      ⟨1, "u1", "Al", "al@x.co", none, 3⟩
      ⟨[⟨1, "u1", "Al", "al@x.co", none, 3⟩], []⟩
      (⟨[], []⟩ : DB)
      (by decide) (by decide) (by decide) (by decide) (by decide) rfl).1⟩
